import Mathlib

/-!
Shallow embedding of the node-ts-api-skeleton repository: the custom error
hierarchy and centralized error handler, the audit middleware's sanitization
and log-level policy, the trace-id middleware and trace context, the REST
response envelopes, and the User/Product service layer.
-/

namespace NodeApi

/-- A JavaScript-style primitive value, used to model header and body field
values together with JavaScript truthiness checks such as
`if (sanitized[header])`. -/
inductive JVal where
| vStr (s : String)
| vNum (n : Int)
| vBool (b : Bool)
| vNull
deriving DecidableEq

/-- JavaScript truthiness of a `JVal`: empty strings, `0`, `false` and
`null` are falsy. -/
def JVal.truthy : JVal → Bool
| .vStr s => s != ""
| .vNum n => n != 0
| .vBool b => b
| .vNull => false

/-- JavaScript `s || fallback` on an optional string: a missing or empty
string falls back to the default. -/
def jsOrElse (s : Option String) (fallback : String) : String :=
  match s with
  | some v => if v = "" then fallback else v
  | none => fallback

/-! ## src/config/custom-error.ts -/

/-- Base class `CustomError` from `src/config/custom-error.ts`: a message, an
HTTP status code and an `isOperational` flag (defaulted to `true` by every
subclass constructor). -/
structure CustomError where
  message : String
  statusCode : Nat
  isOperational : Bool
deriving DecidableEq

/-- `NotFoundError` (404). -/
def NotFoundError (message : String) : CustomError := ⟨message, 404, true⟩

/-- `ConflictError` (409). -/
def ConflictError (message : String) : CustomError := ⟨message, 409, true⟩

/-- `BadRequestError` (400). -/
def BadRequestError (message : String) : CustomError := ⟨message, 400, true⟩

/-- `UnauthorizedError` (401). -/
def UnauthorizedError (message : String) : CustomError := ⟨message, 401, true⟩

/-- `ForbiddenError` (403). -/
def ForbiddenError (message : String) : CustomError := ⟨message, 403, true⟩

/-- `InternalServerError` (500). -/
def InternalServerError (message : String) : CustomError := ⟨message, 500, true⟩

/-! ## The error middleware (centralized `errorHandler`) -/

/-- `ValidationMessages.REQUEST_PROCESSING` from the validation-messages
constants module. -/
def REQUEST_PROCESSING : String := "Error al procesar la solicitud"

/-- An error reaching the centralized handler: either an `instanceof
CustomError`, or any other `Error` (with its message, optional stack, and
whether it is an `AxiosError`). -/
inductive AppError where
| custom (e : CustomError)
| generic (message : String) (stack : Option String) (isAxios : Bool)
deriving DecidableEq

/-- The JSON body `{ success, message }` the error handler sends. -/
structure ErrorJsonBody where
  success : Bool
  message : String
deriving DecidableEq

/-- An HTTP error response: status code plus JSON body. -/
structure ErrorResponse where
  status : Nat
  body : ErrorJsonBody
deriving DecidableEq

/-- The part of the `GenericErrorDetails` log record relevant to the spec:
the error's message and its stack trace, logged server-side. -/
structure GenericErrorDetails where
  error : String
  stack : Option String
deriving DecidableEq

/-- Observable outcome of the error handler: the response sent to the client
(`none` when the handler falls through to `next(error)` because headers were
already sent) and the generic error details logged server-side (`none` on
the `CustomError` path, which logs only the custom details). -/
structure HandlerOutcome where
  response : Option ErrorResponse
  loggedGeneric : Option GenericErrorDetails
deriving DecidableEq

/-- The centralized `errorHandler` middleware. A `CustomError` is answered
with its own status code and message; any other error has its message and
stack logged and, unless `res.headersSent`, is answered with status 500 and
the fixed generic body. -/
def errorHandler (e : AppError) (headersSent : Bool) : HandlerOutcome :=
  match e with
  | .custom c => ⟨some ⟨c.statusCode, ⟨false, c.message⟩⟩, none⟩
  | .generic msg stack _ =>
      ⟨if headersSent then none else some ⟨500, ⟨false, REQUEST_PROCESSING⟩⟩,
       some ⟨msg, stack⟩⟩

/-! ## src/middlewares/audit.middleware.ts -/

/-- The four log levels of the audit middleware. -/
inductive LogLevel where
| debug
| info
| warn
| error
deriving DecidableEq

/-- `getLogLevel` from `audit.middleware.ts`: maps an HTTP status code to
the log level used for the response audit line. -/
def getLogLevel (statusCode : Nat) : LogLevel :=
  if statusCode ≥ 500 then .error
  else if statusCode ≥ 400 then .warn
  else if statusCode ≥ 300 then .info
  else .debug

/-- The sensitive header names redacted by `sanitizeHeaders`. -/
def sensitiveHeaders : List String :=
  ["authorization", "cookie", "x-api-key", "x-auth-token"]

/-- The redaction marker written over sensitive values. -/
def REDACTED : JVal := .vStr "[REDACTED]"

/-- `sanitizeHeaders`: copies the headers and overwrites each sensitive
header whose value is truthy (`if (sanitized[header])`) with
`'[REDACTED]'`. Headers are modelled as an association list with the usual
JavaScript-object guarantee of distinct keys. -/
def sanitizeHeaders (headers : List (String × JVal)) : List (String × JVal) :=
  headers.map fun kv =>
    if sensitiveHeaders.contains kv.1 && kv.2.truthy then (kv.1, REDACTED) else kv

/-- The sensitive body field names redacted by `sanitizeBody`. -/
def sensitiveBodyFields : List String :=
  ["password", "token", "secret", "key", "pin", "cvv", "newPassword"]

/-- A request body: either an object (association list of fields) or a
non-object primitive, which `sanitizeBody` returns unchanged. -/
inductive ReqBody where
| obj (fields : List (String × JVal))
| prim (v : JVal)
deriving DecidableEq

/-- `sanitizeBody`: non-objects pass through; on an object each sensitive
field with a truthy value is overwritten with `'[REDACTED]'`. -/
def sanitizeBody : ReqBody → ReqBody
| .prim v => .prim v
| .obj fields =>
    .obj (fields.map fun kv =>
      if sensitiveBodyFields.contains kv.1 && kv.2.truthy then (kv.1, REDACTED) else kv)

/-! ## Trace middleware and trace context -/

/-- `setTraceId` from the trace-context module: establishes the trace id
only when no store exists yet (`if (!asyncLocalStorage.getStore())`); an
already-established context is left untouched. The `AsyncLocalStorage`
store is modelled as `Option String`. -/
def setTraceId (traceId : String) (store : Option String) : Option String :=
  match store with
  | none => some traceId
  | some s => some s

/-- `getTraceId`: the trace id of the current store, if any. -/
def getTraceId (store : Option String) : Option String := store

/-- Result of running the trace middleware: the `req.traceId` assigned to
the request and the trace-context store afterwards. -/
structure TraceResult where
  reqTraceId : String
  store : Option String
deriving DecidableEq

/-- `traceMiddleware`: computes
`req.headers['x-trace-id'] || uuidv4()` (JavaScript `||`, so a missing or
empty header falls back to the fresh UUID, passed here as `freshUuid`),
stores it in `req.traceId`, and calls `traceContext.setTraceId` on it. -/
def traceMiddleware (header : Option String) (freshUuid : String)
    (store : Option String) : TraceResult :=
  let traceId := jsOrElse header freshUuid
  ⟨traceId, setTraceId traceId store⟩

/-! ## JSON response shapes of the REST endpoints -/

/-- A JSON value, used to model response bodies. -/
inductive Json where
| str (s : String)
| num (n : Int)
| jbool (b : Bool)
| jnull
| arr (elems : List Json)
| obj (fields : List (String × Json))

/-- Whether a JSON value is an object carrying field `k`. -/
def Json.hasField (j : Json) (k : String) : Bool :=
  match j with
  | .obj fields => (fields.lookup k).isSome
  | _ => false

/-- Whether a JSON value carries the uniform `{success, data, message}`
envelope fields. -/
def hasSuccessEnvelope (j : Json) : Bool :=
  j.hasField "success" && j.hasField "data" && j.hasField "message"

/-- `UserController.createUser` success response: 201 with the envelope. -/
def userCreateResponse (data : Json) : Nat × Json :=
  (201, .obj [("success", .jbool true), ("data", data),
              ("message", .str "Usuario creado exitosamente")])

/-- `UserController.getAllUsers` success response: 200 with the envelope. -/
def userGetAllResponse (data : Json) : Nat × Json :=
  (200, .obj [("success", .jbool true), ("data", data),
              ("message", .str "Usuarios obtenidos exitosamente")])

/-- `UserController.getUserById` success response: 200 with the envelope. -/
def userGetByIdResponse (data : Json) : Nat × Json :=
  (200, .obj [("success", .jbool true), ("data", data),
              ("message", .str "Usuario obtenido exitosamente")])

/-- `UserController.getUserByEmail` success response: 200 with the envelope. -/
def userGetByEmailResponse (data : Json) : Nat × Json :=
  (200, .obj [("success", .jbool true), ("data", data),
              ("message", .str "Usuario obtenido exitosamente")])

/-- `UserController.updateUser` success response: 200 with the envelope. -/
def userUpdateResponse (data : Json) : Nat × Json :=
  (200, .obj [("success", .jbool true), ("data", data),
              ("message", .str "Usuario actualizado exitosamente")])

/-- `UserController.deleteUser` success response: 200 with `success` and
`message` only — the code sends no `data` field. -/
def userDeleteResponse : Nat × Json :=
  (200, .obj [("success", .jbool true),
              ("message", .str "Usuario eliminado exitosamente")])

/-- `ProductController.createProduct` success response:
`res.status(201).json(product)` — the raw product row, no envelope. -/
def productCreateResponse (product : Json) : Nat × Json :=
  (201, product)

/-- `ProductController.getProducts` success response: `res.json(products)`
passes through the service result `{ data, meta }` — no envelope. -/
def productListResponse (data meta : Json) : Nat × Json :=
  (200, .obj [("data", data), ("meta", meta)])

/-- `GET /health` handler: 200 with
`{ status, timestamp, uptime, environment }` — no envelope. -/
def healthResponse (timestamp : String) (uptime : Json) (environment : String) :
    Nat × Json :=
  (200, .obj [("status", .str "ok"), ("timestamp", .str timestamp),
              ("uptime", uptime), ("environment", .str environment)])

/-! ## src/v1/services/user.service.ts

The Prisma `user` table is modelled as a list of rows; `findUnique` on the
unique columns `id` / `email` is `List.find?`. Timestamps are abstract
`Nat` instants, and row ids are supplied by the caller (Prisma generates
them). Each mutating method returns the service result together with the
table afterwards. -/

/-- A row of the Prisma `User` model: id, unique email, nullable name,
timestamps. -/
structure User where
  id : String
  email : String
  name : Option String
  createdAt : Nat
  updatedAt : Nat
deriving DecidableEq

/-- `UserDTO` returned to controllers. -/
structure UserDTO where
  id : String
  email : String
  name : String
  createdAt : Nat
  updatedAt : Nat
deriving DecidableEq

/-- `CreateUserDTO`. -/
structure CreateUserDTO where
  email : String
  name : String
deriving DecidableEq

/-- `UpdateUserDTO`: both fields optional for partial updates. -/
structure UpdateUserDTO where
  email : Option String
  name : Option String
deriving DecidableEq

/-- `toUserDTO`: maps a row to its DTO; `name: user.name || ''`. -/
def toUserDTO (u : User) : UserDTO :=
  ⟨u.id, u.email, jsOrElse u.name "", u.createdAt, u.updatedAt⟩

namespace UserService

/-- `UserService.createUser`: `findUnique` on the email; if a user exists,
throw `ConflictError('El email ya existe')`; otherwise insert the new row
(id and timestamps generated) and return its DTO. -/
def createUser (db : List User) (userData : CreateUserDTO) (newId : String)
    (now : Nat) : Except CustomError UserDTO × List User :=
  match db.find? fun u => u.email == userData.email with
  | some _ => (.error (ConflictError "El email ya existe"), db)
  | none =>
      let newUser : User := ⟨newId, userData.email, some userData.name, now, now⟩
      (.ok (toUserDTO newUser), db ++ [newUser])

/-- `UserService.getUserById`: `findUnique` on the id; throw
`NotFoundError('Usuario no encontrado')` when absent. -/
def getUserById (db : List User) (id : String) : Except CustomError UserDTO :=
  match db.find? fun u => u.id == id with
  | none => .error (NotFoundError "Usuario no encontrado")
  | some u => .ok (toUserDTO u)

/-- `UserService.getUserByEmail`: `findUnique` on the email; throw
`NotFoundError('Usuario no encontrado')` when absent. -/
def getUserByEmail (db : List User) (email : String) : Except CustomError UserDTO :=
  match db.find? fun u => u.email == email with
  | none => .error (NotFoundError "Usuario no encontrado")
  | some u => .ok (toUserDTO u)

/-- Prisma `update` data: provided fields overwrite the row, `updatedAt` is
refreshed automatically. -/
def applyUpdate (d : UpdateUserDTO) (now : Nat) (u : User) : User :=
  ⟨u.id, d.email.getD u.email,
   match d.name with
   | some n => some n
   | none => u.name,
   u.createdAt, now⟩

/-- `UserService.updateUser`: first `getUserById` (throws `NotFoundError`
when the id is absent), then update the row and return its DTO. -/
def updateUser (db : List User) (id : String) (d : UpdateUserDTO) (now : Nat) :
    Except CustomError UserDTO × List User :=
  match db.find? fun u => u.id == id with
  | none => (.error (NotFoundError "Usuario no encontrado"), db)
  | some u =>
      (.ok (toUserDTO (applyUpdate d now u)),
       db.map fun w => if w.id == id then applyUpdate d now w else w)

/-- `UserService.deleteUser`: first `getUserById` (throws `NotFoundError`
when the id is absent), then delete the row. -/
def deleteUser (db : List User) (id : String) : Except CustomError Unit × List User :=
  match db.find? fun u => u.id == id with
  | none => (.error (NotFoundError "Usuario no encontrado"), db)
  | some _ => (.ok (), db.filter fun u => !(u.id == id))

end UserService

/-! ## src/v1/services/product.service.ts

Numbers (`precio`, `stock`) are JavaScript doubles used only through order
comparisons and `Number.isInteger`; they are modelled as rationals. The
service throws plain `{ status, message }` objects. -/

/-- The plain error object `{ status, message }` thrown by the product
service. -/
structure ServiceError where
  status : Nat
  message : String
deriving DecidableEq

/-- A row of the Prisma `Product` model. -/
structure Product where
  id : Nat
  nombre : String
  descripcion : Option String
  precio : Rat
  stock : Rat
deriving DecidableEq

/-- `Number.isInteger` on a (finite) number. -/
def jsIsInteger (q : Rat) : Bool := q.den == 1

/-- JavaScript `s.trim() === ''`: true exactly when every character of `s`
is whitespace (so also for the empty string). -/
def trimEmpty (s : String) : Bool := s.data.all Char.isWhitespace

/-- The input `data` of `ProductService.createProduct`. -/
structure CreateProductData where
  nombre : String
  precio : Rat
  descripcion : Option String
  stock : Rat
deriving DecidableEq

namespace ProductService

/-- `ProductService.createProduct` (identical in the module-level-client and
injected-client variants): reject an empty or whitespace-only `nombre` with
a 400, reject a negative or non-integer `stock` with a 400, otherwise
insert the row. -/
def createProduct (db : List Product) (data : CreateProductData) (newId : Nat) :
    Except ServiceError Product × List Product :=
  if data.nombre = "" ∨ trimEmpty data.nombre = true then
    (.error ⟨400, "El nombre del producto no puede estar vacío."⟩, db)
  else if data.stock < 0 ∨ jsIsInteger data.stock = false then
    (.error ⟨400, "El stock debe ser un número entero positivo."⟩, db)
  else
    let p : Product := ⟨newId, data.nombre, data.descripcion, data.precio, data.stock⟩
    (.ok p, db ++ [p])

end ProductService

/-- An element of the `createProductDTO[]` array passed to the bulk
endpoint: `precio` and `stock` may be missing (or, for `precio`, not a
number), which is modelled as `none`. -/
structure BulkProductItem where
  nombre : String
  precio : Option Rat
  descripcion : Option String
  stock : Option Rat
deriving DecidableEq

/-- JavaScript `x < 0` on a possibly-undefined number: `undefined < 0` is
`false`. -/
def jsLtZero : Option Rat → Bool
| some q => decide (q < 0)
| none => false

/-- `Number.isInteger` on a possibly-undefined number:
`Number.isInteger(undefined)` is `false`. -/
def jsIsIntegerOpt : Option Rat → Bool
| some q => q.den == 1
| none => false

/-- A default element used when indexing bulk arrays with `List.getD`. -/
def defaultBulkItem : BulkProductItem := ⟨"", none, none, none⟩

namespace ProductService

/-- The per-element validation of `createMultipleProducts`, in source
order: empty/whitespace `nombre`, then missing/non-numeric `precio`, then
negative or non-integer `stock`; each error is a 400 naming the element's
position. -/
def validateBulkItem (p : BulkProductItem) (index : Nat) : Option ServiceError :=
  if p.nombre = "" ∨ trimEmpty p.nombre = true then
    some ⟨400, "El nombre del producto en la posición " ++ toString index ++
               " no puede estar vacío."⟩
  else if p.precio.isNone then
    some ⟨400, "El precio del producto en la posición " ++ toString index ++
               " debe ser un número válido."⟩
  else if jsLtZero p.stock || !jsIsIntegerOpt p.stock then
    some ⟨400, "El stock del producto en la posición " ++ toString index ++
               " debe ser un número entero positivo."⟩
  else none

/-- The `products.forEach` validation loop: the error of the first failing
element (a `throw` escapes the loop), walked with its running index. -/
def firstBulkError (products : List BulkProductItem) (start : Nat) :
    Option ServiceError :=
  match products with
  | [] => none
  | p :: rest =>
      match validateBulkItem p start with
      | some e => some e
      | none => firstBulkError rest (start + 1)

/-- `ProductService.createMultipleProducts`: reject an empty array, run the
validation loop over every element, and only then perform the single
`createMany` insertion, returning the inserted count. -/
def createMultipleProducts (db : List Product) (products : List BulkProductItem)
    (startId : Nat) : Except ServiceError Nat × List Product :=
  if products.length = 0 then
    (.error ⟨400, "Se debe proporcionar un array de productos para la carga masiva."⟩,
     db)
  else
    match firstBulkError products 0 with
    | some e => (.error e, db)
    | none =>
        let rows := products.enum.map fun pr =>
          (⟨startId + pr.1, pr.2.nombre, pr.2.descripcion,
            pr.2.precio.getD 0, pr.2.stock.getD 0⟩ : Product)
        (.ok rows.length, db ++ rows)

end ProductService

/-! ## Theorems -/

/-- Claim C1: every error that is one of the six custom error kinds is
answered by the centralized handler with its kind's HTTP status — 404, 409,
400, 401, 403 and 500 respectively — and the JSON body
`{ success: false, message }` carrying that error's message. -/
theorem errorHandler_custom_error_mapping (m : String) (hs : Bool) :
    errorHandler (.custom (NotFoundError m)) hs = ⟨some ⟨404, ⟨false, m⟩⟩, none⟩ ∧
    errorHandler (.custom (ConflictError m)) hs = ⟨some ⟨409, ⟨false, m⟩⟩, none⟩ ∧
    errorHandler (.custom (BadRequestError m)) hs = ⟨some ⟨400, ⟨false, m⟩⟩, none⟩ ∧
    errorHandler (.custom (UnauthorizedError m)) hs = ⟨some ⟨401, ⟨false, m⟩⟩, none⟩ ∧
    errorHandler (.custom (ForbiddenError m)) hs = ⟨some ⟨403, ⟨false, m⟩⟩, none⟩ ∧
    errorHandler (.custom (InternalServerError m)) hs = ⟨some ⟨500, ⟨false, m⟩⟩, none⟩ :=
  ⟨rfl, rfl, rfl, rfl, rfl, rfl⟩

/-- Claim C2: every non-CustomError reaching the handler has its message
and stack trace logged server-side; when headers have not been sent the
client gets status 500 with the fixed generic body
`{ success: false, message: 'Error al procesar la solicitud' }` (so no
stack trace or internal detail is exposed), and when headers were already
sent no response is produced. -/
theorem errorHandler_generic_error (msg : String) (stack : Option String) (ax : Bool) :
    errorHandler (.generic msg stack ax) false =
      ⟨some ⟨500, ⟨false, REQUEST_PROCESSING⟩⟩, some ⟨msg, stack⟩⟩ ∧
    (errorHandler (.generic msg stack ax) true).loggedGeneric = some ⟨msg, stack⟩ ∧
    (errorHandler (.generic msg stack ax) true).response = none ∧
    REQUEST_PROCESSING = "Error al procesar la solicitud" :=
  ⟨rfl, rfl, rfl, rfl⟩

/-- Claim C4: the audit middleware's response log level is `error` iff the
status code is at least 500, `warn` iff it is in [400, 500), `info` iff it
is in [300, 400), and `debug` iff it is below 300. -/
theorem getLogLevel_policy (n : Nat) :
    (getLogLevel n = .error ↔ 500 ≤ n) ∧
    (getLogLevel n = .warn ↔ 400 ≤ n ∧ n < 500) ∧
    (getLogLevel n = .info ↔ 300 ≤ n ∧ n < 400) ∧
    (getLogLevel n = .debug ↔ n < 300) := by
  unfold getLogLevel
  split_ifs with h1 h2 h3 <;>
    refine ⟨?_, ?_, ?_, ?_⟩ <;> constructor <;> intro h <;>
      first
      | rfl
      | omega
      | simp at h

/-- Claim C5 counterexample: with the `x-trace-id` header present but equal
to the empty string, `req.traceId` is the freshly generated UUID, not the
header's value — JavaScript `||` falls through on the empty string. -/
theorem traceMiddleware_empty_header_cex :
    (traceMiddleware (some "") "a1b2c3d4-e5f6-4a7b-8c9d-0e1f2a3b4c5d" none).reqTraceId =
      "a1b2c3d4-e5f6-4a7b-8c9d-0e1f2a3b4c5d" ∧
    "a1b2c3d4-e5f6-4a7b-8c9d-0e1f2a3b4c5d" ≠ "" :=
  ⟨rfl, by decide⟩

/-- Claim C5 (amended): `req.traceId` equals the `x-trace-id` header when
that header is present and non-empty, and the freshly generated UUID
otherwise; when no trace context was established before the request,
`traceContext.getTraceId()` afterwards returns exactly this id; and
`setTraceId` never overwrites an already-established context. -/
theorem traceMiddleware_assigns_trace_id (header : Option String) (fresh : String)
    (store : Option String) :
    (∀ h, header = some h → h ≠ "" →
      (traceMiddleware header fresh store).reqTraceId = h) ∧
    ((header = none ∨ header = some "") →
      (traceMiddleware header fresh store).reqTraceId = fresh) ∧
    (store = none →
      getTraceId (traceMiddleware header fresh store).store =
        some (traceMiddleware header fresh store).reqTraceId) ∧
    (∀ t s, setTraceId t (some s) = some s) := by
  refine ⟨?_, ?_, ?_, fun t s => rfl⟩
  · intro h hh hne
    subst hh
    simp [traceMiddleware, jsOrElse, hne]
  · rintro (h | h) <;> subst h <;> simp [traceMiddleware, jsOrElse]
  · intro hs
    subst hs
    rfl

/-- Witness for the amended C5 theorem at a concrete request. -/
theorem traceMiddleware_assigns_trace_id_witness :
    (traceMiddleware (some "req-42") "fresh-uuid" none).reqTraceId = "req-42" ∧
    getTraceId (traceMiddleware (some "req-42") "fresh-uuid" none).store = some "req-42" ∧
    setTraceId "t0" (some "established") = some "established" := by
  obtain ⟨h1, h2, h3, h4⟩ :=
    traceMiddleware_assigns_trace_id (some "req-42") "fresh-uuid" none
  refine ⟨h1 "req-42" rfl (by decide), ?_, h4 "t0" "established"⟩
  rw [h3 rfl, h1 "req-42" rfl (by decide)]

/-- Claim C6 counterexample: two successful REST responses do not carry the
`{success, data, message}` envelope — the health check body has none of the
three fields, and the `deleteUser` success body has no `data` field. -/
theorem success_envelope_cex :
    hasSuccessEnvelope
      (healthResponse "2025-01-01T00:00:00.000Z" (.num 3600) "development").2 = false ∧
    hasSuccessEnvelope userDeleteResponse.2 = false ∧
    userDeleteResponse.2.hasField "data" = false := by
  refine ⟨rfl, rfl, rfl⟩

/-- Claim C6 (amended): the successful responses of the User CRUD endpoints
carry the `{success, data, message}` envelope, except `deleteUser`, whose
body carries only `success` and `message`; the health check returns a plain
status object and the Product endpoints return the raw service result, with
no envelope. -/
theorem success_envelope_shape (data meta product : Json) (ts : String)
    (up : Json) (env : String) :
    hasSuccessEnvelope (userCreateResponse data).2 = true ∧
    hasSuccessEnvelope (userGetAllResponse data).2 = true ∧
    hasSuccessEnvelope (userGetByIdResponse data).2 = true ∧
    hasSuccessEnvelope (userGetByEmailResponse data).2 = true ∧
    hasSuccessEnvelope (userUpdateResponse data).2 = true ∧
    userDeleteResponse.2.hasField "success" = true ∧
    userDeleteResponse.2.hasField "message" = true ∧
    userDeleteResponse.2.hasField "data" = false ∧
    (productCreateResponse product).2 = product ∧
    hasSuccessEnvelope (productListResponse data meta).2 = false ∧
    hasSuccessEnvelope (healthResponse ts up env).2 = false :=
  ⟨rfl, rfl, rfl, rfl, rfl, rfl, rfl, rfl, rfl, rfl, rfl⟩

/-- Redaction is pointwise on association-list lookups: the sanitized list
binds a key to `[REDACTED]` when the key is sensitive and its value truthy,
and to the original value otherwise. -/
theorem lookup_redact_map (sens : List String) (l : List (String × JVal))
    (k : String) (v : JVal) (h : l.lookup k = some v) :
    (l.map fun kv =>
        if sens.contains kv.1 && kv.2.truthy then (kv.1, REDACTED) else kv).lookup k =
      some (if sens.contains k && v.truthy then REDACTED else v) := by
  induction l with
  | nil => simp at h
  | cons hd tl ih =>
      obtain ⟨a, b⟩ := hd
      have hhead : (if sens.contains a && b.truthy then ((a : String), REDACTED) else (a, b)) =
          (a, if sens.contains a && b.truthy then REDACTED else b) := by
        by_cases hc : (sens.contains a && b.truthy) = true
        · rw [if_pos hc, if_pos hc]
        · rw [if_neg hc, if_neg hc]
      simp only [List.map_cons]
      rw [hhead, List.lookup_cons]
      rw [List.lookup_cons] at h
      cases hab : k == a with
      | false =>
          simp only [hab] at h ⊢
          exact ih h
      | true =>
          have hk : k = a := by
            simpa using hab
          subst hk
          simp only [hab] at h ⊢
          injection h with hbv
          subst hbv
          rfl

/-- Claim C3 counterexample: an `authorization` header present with the
empty string as value is left unchanged rather than redacted — the code's
`if (sanitized[header])` skips falsy values — and likewise for an empty
`password` body field. -/
theorem sanitize_falsy_not_redacted_cex :
    sanitizeHeaders [("authorization", .vStr "")] = [("authorization", .vStr "")] ∧
    JVal.vStr "" ≠ REDACTED ∧
    sanitizeBody (.obj [("password", .vStr "")]) = .obj [("password", .vStr "")] ∧
    sanitizeBody (.obj [("password", .vStr "")]) ≠ .obj [("password", REDACTED)] :=
  ⟨rfl, by decide, rfl, by decide⟩

/-- Claim C3 (amended): in the audited request data each sensitive header
(`authorization`, `cookie`, `x-api-key`, `x-auth-token`) and each sensitive
body field (`password`, `token`, `secret`, `key`, `pin`, `cvv`,
`newPassword`) is replaced by `'[REDACTED]'` whenever present with a truthy
value; a sensitive entry holding a falsy value (empty string, 0, false,
null) and every non-sensitive entry appear unchanged. -/
theorem audit_sanitization (headers fields : List (String × JVal))
    (k : String) (v : JVal) :
    (headers.lookup k = some v →
      (sanitizeHeaders headers).lookup k =
        some (if sensitiveHeaders.contains k && v.truthy then REDACTED else v)) ∧
    (fields.lookup k = some v →
      ∃ fields2, sanitizeBody (.obj fields) = .obj fields2 ∧
        fields2.lookup k =
          some (if sensitiveBodyFields.contains k && v.truthy then REDACTED else v)) := by
  constructor
  · intro h
    exact lookup_redact_map sensitiveHeaders headers k v h
  · intro h
    exact ⟨_, rfl, lookup_redact_map sensitiveBodyFields fields k v h⟩

/-- Witness for the amended C3 theorem on a concrete request. -/
theorem audit_sanitization_witness :
    (sanitizeHeaders [("authorization", .vStr "Bearer tok"),
        ("content-type", .vStr "application/json")]).lookup "authorization" =
      some REDACTED ∧
    (sanitizeHeaders [("authorization", .vStr "Bearer tok"),
        ("content-type", .vStr "application/json")]).lookup "content-type" =
      some (.vStr "application/json") ∧
    ∃ fields2,
      sanitizeBody (.obj [("password", .vStr "secreta"), ("username", .vStr "u")]) =
        .obj fields2 ∧ fields2.lookup "password" = some REDACTED := by
  have h1 := (audit_sanitization
    [("authorization", .vStr "Bearer tok"), ("content-type", .vStr "application/json")]
    [] "authorization" (.vStr "Bearer tok")).1 (by decide)
  have h2 := (audit_sanitization
    [("authorization", .vStr "Bearer tok"), ("content-type", .vStr "application/json")]
    [] "content-type" (.vStr "application/json")).1 (by decide)
  have h3 := (audit_sanitization []
    [("password", .vStr "secreta"), ("username", .vStr "u")]
    "password" (.vStr "secreta")).2 (by decide)
  refine ⟨?_, ?_, ?_⟩
  · rw [h1]; decide
  · rw [h2]; decide
  · obtain ⟨f2, hf2, hl⟩ := h3
    refine ⟨f2, hf2, ?_⟩
    rw [hl]; decide

/-- Claim C7: `createUser` throws `ConflictError('El email ya existe')` if
and only if a stored user already has the requested email; otherwise it
inserts the user and returns its DTO; and pairwise-distinct emails are
preserved by the operation. -/
theorem createUser_unique_email (db : List User) (d : CreateUserDTO)
    (newId : String) (now : Nat) :
    ((∃ u ∈ db, u.email = d.email) →
      UserService.createUser db d newId now =
        (.error (ConflictError "El email ya existe"), db)) ∧
    ((∀ u ∈ db, u.email ≠ d.email) →
      UserService.createUser db d newId now =
        (.ok (toUserDTO ⟨newId, d.email, some d.name, now, now⟩),
         db ++ [⟨newId, d.email, some d.name, now, now⟩])) ∧
    ((db.Pairwise fun a b => a.email ≠ b.email) →
      ((UserService.createUser db d newId now).2.Pairwise
        fun a b => a.email ≠ b.email)) := by
  cases hfind : db.find? fun u => u.email == d.email with
  | some u =>
      have hmem : u ∈ db := List.mem_of_find?_eq_some hfind
      have heq : u.email = d.email := by
        have := List.find?_some hfind
        simpa using this
      refine ⟨fun _ => ?_, fun hall => absurd heq (hall u hmem), fun hpw => ?_⟩
      · simp [UserService.createUser, hfind]
      · simpa [UserService.createUser, hfind] using hpw
  | none =>
      have hnone : ∀ u ∈ db, u.email ≠ d.email := by
        intro u hu
        have := List.find?_eq_none.mp hfind u hu
        simpa using this
      refine ⟨fun hex => ?_, fun _ => ?_, fun hpw => ?_⟩
      · obtain ⟨u, hu, he⟩ := hex
        exact absurd he (hnone u hu)
      · simp [UserService.createUser, hfind]
      · simp only [UserService.createUser, hfind]
        rw [List.pairwise_append]
        refine ⟨hpw, List.pairwise_singleton _ _, ?_⟩
        intro a ha b hb
        simp only [List.mem_singleton] at hb
        subst hb
        exact hnone a ha

/-- Witness for the C7 theorem on a concrete store. -/
theorem createUser_unique_email_witness :
    UserService.createUser [⟨"u1", "ana@example.com", some "Ana", 0, 0⟩]
      ⟨"ana@example.com", "Bob"⟩ "u2" 1 =
      (.error (ConflictError "El email ya existe"),
       [⟨"u1", "ana@example.com", some "Ana", 0, 0⟩]) ∧
    UserService.createUser [⟨"u1", "ana@example.com", some "Ana", 0, 0⟩]
      ⟨"bob@example.com", "Bob"⟩ "u2" 1 =
      (.ok (toUserDTO ⟨"u2", "bob@example.com", some "Bob", 1, 1⟩),
       [⟨"u1", "ana@example.com", some "Ana", 0, 0⟩,
        ⟨"u2", "bob@example.com", some "Bob", 1, 1⟩]) ∧
    ((UserService.createUser [⟨"u1", "ana@example.com", some "Ana", 0, 0⟩]
        ⟨"bob@example.com", "Bob"⟩ "u2" 1).2.Pairwise
      fun a b => a.email ≠ b.email) := by
  obtain ⟨h1, -, -⟩ := createUser_unique_email
    [⟨"u1", "ana@example.com", some "Ana", 0, 0⟩] ⟨"ana@example.com", "Bob"⟩ "u2" 1
  obtain ⟨-, h2, h3⟩ := createUser_unique_email
    [⟨"u1", "ana@example.com", some "Ana", 0, 0⟩] ⟨"bob@example.com", "Bob"⟩ "u2" 1
  refine ⟨h1 ?_, h2 ?_, h3 ?_⟩
  · exact ⟨⟨"u1", "ana@example.com", some "Ana", 0, 0⟩, by decide, rfl⟩
  · decide
  · exact List.pairwise_singleton _ _

/-- Claim C8: when no stored user has the requested id, `getUserById`,
`updateUser` and `deleteUser` all throw
`NotFoundError('Usuario no encontrado')` and leave the stored users
unchanged; and `getUserByEmail` throws the same error when no stored user
has the requested email. -/
theorem missing_user_not_found (db : List User) (id email : String)
    (d : UpdateUserDTO) (now : Nat) :
    (∀ u ∈ db, u.id ≠ id) →
      UserService.getUserById db id = .error (NotFoundError "Usuario no encontrado") ∧
      UserService.updateUser db id d now =
        (.error (NotFoundError "Usuario no encontrado"), db) ∧
      UserService.deleteUser db id =
        (.error (NotFoundError "Usuario no encontrado"), db) ∧
      ((∀ u ∈ db, u.email ≠ email) →
        UserService.getUserByEmail db email =
          .error (NotFoundError "Usuario no encontrado")) := by
  intro hid
  have hfid : db.find? (fun u => u.id == id) = none := by
    rw [List.find?_eq_none]
    intro u hu
    simpa using hid u hu
  refine ⟨?_, ?_, ?_, fun hemail => ?_⟩
  · simp [UserService.getUserById, hfid]
  · simp [UserService.updateUser, hfid]
  · simp [UserService.deleteUser, hfid]
  · have hfe : db.find? (fun u => u.email == email) = none := by
      rw [List.find?_eq_none]
      intro u hu
      simpa using hemail u hu
    simp [UserService.getUserByEmail, hfe]

/-- Witness for the C8 theorem on a concrete store. -/
theorem missing_user_not_found_witness :
    UserService.getUserById [⟨"u1", "ana@example.com", some "Ana", 0, 0⟩] "u2" =
      .error (NotFoundError "Usuario no encontrado") ∧
    UserService.updateUser [⟨"u1", "ana@example.com", some "Ana", 0, 0⟩] "u2"
        ⟨none, none⟩ 1 =
      (.error (NotFoundError "Usuario no encontrado"),
       [⟨"u1", "ana@example.com", some "Ana", 0, 0⟩]) ∧
    UserService.deleteUser [⟨"u1", "ana@example.com", some "Ana", 0, 0⟩] "u2" =
      (.error (NotFoundError "Usuario no encontrado"),
       [⟨"u1", "ana@example.com", some "Ana", 0, 0⟩]) ∧
    UserService.getUserByEmail [⟨"u1", "ana@example.com", some "Ana", 0, 0⟩]
        "none@example.com" =
      .error (NotFoundError "Usuario no encontrado") := by
  obtain ⟨h1, h2, h3, h4⟩ := missing_user_not_found
    [⟨"u1", "ana@example.com", some "Ana", 0, 0⟩] "u2" "none@example.com"
    ⟨none, none⟩ 1 (by decide)
  exact ⟨h1, h2, h3, h4 (by decide)⟩

/-- Claim C9: `createProduct` throws a 400 error whenever the stock is
negative or not an integer, and whenever the nombre is empty or only
whitespace (both checks leaving the table unchanged); with a non-empty,
non-whitespace nombre and a non-negative integer stock validation passes
and the product is stored; and the non-negative-integer-stock invariant of
the table is preserved. -/
theorem createProduct_validation (db : List Product) (d : CreateProductData)
    (newId : Nat) :
    ((d.stock < 0 ∨ jsIsInteger d.stock = false ∨ d.nombre = "" ∨ trimEmpty d.nombre = true) →
      ∃ e, ProductService.createProduct db d newId = (.error e, db) ∧ e.status = 400) ∧
    (trimEmpty d.nombre = false → ¬ d.stock < 0 → jsIsInteger d.stock = true →
      ProductService.createProduct db d newId =
        (.ok ⟨newId, d.nombre, d.descripcion, d.precio, d.stock⟩,
         db ++ [⟨newId, d.nombre, d.descripcion, d.precio, d.stock⟩])) ∧
    ((∀ p ∈ db, 0 ≤ p.stock ∧ jsIsInteger p.stock = true) →
      ∀ p ∈ (ProductService.createProduct db d newId).2,
        0 ≤ p.stock ∧ jsIsInteger p.stock = true) := by
  refine ⟨?_, ?_, ?_⟩
  · intro hbad
    by_cases h1 : d.nombre = "" ∨ trimEmpty d.nombre = true
    · exact ⟨⟨400, "El nombre del producto no puede estar vacío."⟩,
        by simp [ProductService.createProduct, h1], rfl⟩
    · have h2 : d.stock < 0 ∨ jsIsInteger d.stock = false := by
        rcases hbad with h | h | h | h
        · exact Or.inl h
        · exact Or.inr h
        · exact absurd (Or.inl h) h1
        · exact absurd (Or.inr h) h1
      exact ⟨⟨400, "El stock debe ser un número entero positivo."⟩,
        by simp [ProductService.createProduct, h1, h2], rfl⟩
  · intro ht hs hi
    have h1 : ¬ (d.nombre = "" ∨ trimEmpty d.nombre = true) := by
      rintro (h | h)
      · rw [h] at ht
        exact absurd ht (by decide)
      · rw [h] at ht
        exact Bool.noConfusion ht
    have h2 : ¬ (d.stock < 0 ∨ jsIsInteger d.stock = false) := by
      rintro (h | h)
      · exact hs h
      · rw [hi] at h
        simp at h
    simp [ProductService.createProduct, h1, h2]
  · intro hinv q hq
    have hsplit : (ProductService.createProduct db d newId).2 = db ∨
        ((ProductService.createProduct db d newId).2 =
          db ++ [⟨newId, d.nombre, d.descripcion, d.precio, d.stock⟩] ∧
         ¬ d.stock < 0 ∧ jsIsInteger d.stock = true) := by
      unfold ProductService.createProduct
      split_ifs with h1 h2
      · exact Or.inl rfl
      · exact Or.inl rfl
      · refine Or.inr ⟨rfl, fun h => h2 (Or.inl h), ?_⟩
        cases hji : jsIsInteger d.stock with
        | false => exact absurd (Or.inr hji) h2
        | true => rfl
    rcases hsplit with h | ⟨h, hs, hi⟩
    · rw [h] at hq
      exact hinv q hq
    · rw [h] at hq
      rcases List.mem_append.mp hq with hmem | hmem
      · exact hinv q hmem
      · simp only [List.mem_singleton] at hmem
        subst hmem
        exact ⟨not_lt.mp hs, hi⟩

/-- Witness for the C9 theorem: a negative stock is rejected with a 400,
and a valid product is stored. -/
theorem createProduct_validation_witness :
    (∃ e, ProductService.createProduct [] ⟨"Laptop", 10, none, -1⟩ 1 =
      (.error e, []) ∧ e.status = 400) ∧
    ProductService.createProduct [] ⟨"Laptop", 10, none, 5⟩ 1 =
      (.ok ⟨1, "Laptop", none, 10, 5⟩, [⟨1, "Laptop", none, 10, 5⟩]) := by
  obtain ⟨h1, -, -⟩ := createProduct_validation [] ⟨"Laptop", 10, none, -1⟩ 1
  obtain ⟨-, h2, -⟩ := createProduct_validation [] ⟨"Laptop", 10, none, 5⟩ 1
  exact ⟨h1 (Or.inl (by decide)), h2 (by decide) (by decide) (by decide)⟩

/-- Every error produced by the per-element bulk validation carries HTTP
status 400. -/
theorem validateBulkItem_status (p : BulkProductItem) (i : Nat) (e : ServiceError)
    (h : ProductService.validateBulkItem p i = some e) : e.status = 400 := by
  unfold ProductService.validateBulkItem at h
  split_ifs at h <;>
    simp only [Option.some.injEq] at h <;>
    subst h <;>
    rfl

/-- The bulk validation loop reports exactly the first failing element's
error, offset by the running start index. -/
theorem firstBulkError_first_failure (ps : List BulkProductItem) :
    ∀ (start j : Nat) (e : ServiceError), j < ps.length →
      (∀ k, k < j →
        ProductService.validateBulkItem (ps.getD k defaultBulkItem) (start + k) = none) →
      ProductService.validateBulkItem (ps.getD j defaultBulkItem) (start + j) = some e →
      ProductService.firstBulkError ps start = some e := by
  induction ps with
  | nil =>
      intro start j e hj
      simp at hj
  | cons p rest ih =>
      intro start j e hj hmin hfail
      cases j with
      | zero =>
          have hp : ProductService.validateBulkItem p start = some e := by
            simpa using hfail
          simp [ProductService.firstBulkError, hp]
      | succ j' =>
          have h0 : ProductService.validateBulkItem p start = none := by
            have := hmin 0 (Nat.succ_pos j')
            simpa using this
          have hrec : ProductService.firstBulkError rest (start + 1) = some e := by
            apply ih (start + 1) j' e (Nat.lt_of_succ_lt_succ (by simpa using hj))
            · intro k hk
              have := hmin (k + 1) (Nat.succ_lt_succ hk)
              have harith : start + (k + 1) = start + 1 + k := by omega
              rw [harith] at this
              simpa using this
            · have harith : start + (j' + 1) = start + 1 + j' := by omega
              rw [harith] at hfail
              simpa using hfail
          simp [ProductService.firstBulkError, h0, hrec]

/-- Claim C10: when some element of the bulk array fails validation (empty
nombre, missing/non-numeric precio, or negative/non-integer stock),
`createMultipleProducts` throws the 400 error of the first failing element
— whose message names that element's index — and performs no insertion at
all: the table is returned unchanged and `createMany` is never reached. -/
theorem createMultipleProducts_validates_all (db : List Product)
    (ps : List BulkProductItem) (startId : Nat) (j : Nat) (e : ServiceError)
    (hj : j < ps.length)
    (hfail : ProductService.validateBulkItem (ps.getD j defaultBulkItem) j = some e)
    (hmin : ∀ k, k < j →
      ProductService.validateBulkItem (ps.getD k defaultBulkItem) k = none) :
    ProductService.createMultipleProducts db ps startId = (.error e, db) ∧
    e.status = 400 := by
  have hlen : ¬ ps.length = 0 := by omega
  have hfe : ProductService.firstBulkError ps 0 = some e := by
    apply firstBulkError_first_failure ps 0 j e hj
    · intro k hk
      simpa using hmin k hk
    · simpa using hfail
  refine ⟨?_, validateBulkItem_status _ _ _ hfail⟩
  simp [ProductService.createMultipleProducts, hlen, hfe]

/-- Witness for the C10 theorem: the second element has an empty nombre, so
the bulk insert fails with the 400 error naming position 1 and the table is
untouched. -/
theorem createMultipleProducts_validates_all_witness :
    ProductService.createMultipleProducts []
      [⟨"Mouse", some 5, none, some 3⟩, ⟨"", some 5, none, some 3⟩] 1 =
      (.error ⟨400, "El nombre del producto en la posición 1 no puede estar vacío."⟩,
       []) ∧
    (⟨400, "El nombre del producto en la posición 1 no puede estar vacío."⟩ :
      ServiceError).status = 400 := by
  apply createMultipleProducts_validates_all []
    [⟨"Mouse", some 5, none, some 3⟩, ⟨"", some 5, none, some 3⟩] 1 1
    ⟨400, "El nombre del producto en la posición 1 no puede estar vacío."⟩
    (by decide) (by decide)
  intro k hk
  have hk0 : k = 0 := by omega
  subst hk0
  decide

end NodeApi
